import Mathlib

/-!
Shallow embedding of the streaming-response classification and aggregation
engine of `src/agent.py` (class `Agent`, method `run_agent`, and
`Agent._setup_mcp_plugins`) together with the fragment-classification loop of
`src/main.py` (function `main`).

Modelling conventions:
* Python strings are `String`; `None`-able values are `Option`.
* The two fragment shapes are `AzureChunk` (shape A: `content_type`,
  `content`, `items`, `finish_reason`) and `OllamaChunk` (shape B:
  `inner_content` optionally containing a `message` object with `thinking`
  and `tool_calls` fields, plus a plain `content` text).
* Each `yield` of the turn generator becomes one element of a `List String`;
  log calls become `LogTag` values collected in order.
* `str(chunk)` on a streaming chat message content returns its text content,
  so it is modelled as the `content` field of the chunk.
* A mid-stream exception is modelled by `errAt = some k`: the stream raises
  while fetching fragment number `k` (0-based), after delivering the first
  `k` fragments.  The `except` clause of `run_agent` catches, logs, and does
  not re-raise, which the model renders as a total function that sets
  `caughtError` and records `LogTag.exceptionCaught`.
* `history.add_assistant_message` cannot fail for plain strings, so the
  system-tagged fallback branch is dead in the model and every committed
  synthesized entry carries `Role.assistant`.
-/

inductive Role
  | system
  | user
  | assistant
deriving DecidableEq, Repr

inductive Kind
  | thought
  | tool
  | message
deriving DecidableEq, Repr

inductive ClassOutcome
  | thought
  | tool
  | message
  | droppedSilent
  | droppedLogged
deriving DecidableEq, Repr

inductive LogTag
  | debugUnexpected
  | exceptionCaught
  | closeError
deriving DecidableEq, Repr

/-- Accumulated tool-call records: `named` is the Ollama-branch record
`(tool.function.name, tool.function.arguments)` (agent.py line 249); `raw`
is the Azure-branch record `tool.inner_content` (agent.py line 207),
modelled by its textual rendering. -/
inductive ToolRec
  | named (name arguments : String)
  | raw (inner : String)
deriving DecidableEq, Repr

/-- The `message` object inside `chunk.inner_content` in the Ollama shape. -/
structure OllamaMessage where
  thinking : Option String
  tool_calls : Option (List (String × String))
deriving DecidableEq, Repr

/-- `chunk.inner_content` in the Ollama shape: a dict whose `message` key
may be absent (the Python lookup of the message key returns None). -/
structure OllamaInner where
  message : Option OllamaMessage
deriving DecidableEq, Repr

/-- One streamed fragment in the Ollama shape (agent.py lines 219-263). -/
structure OllamaChunk where
  content : String
  inner_content : Option OllamaInner
  finish_reason : Option String
deriving DecidableEq, Repr

/-- One entry of `chunk.items` in the Azure shape (agent.py lines 203-207). -/
structure AzureItem where
  content_type : String
  inner_content : String
deriving DecidableEq, Repr

/-- One streamed fragment in the Azure shape (agent.py lines 166-216). -/
structure AzureChunk where
  content_type : String
  content : String
  items : List AzureItem
  finish_reason : Option String
  inner_content : Option String
deriving DecidableEq, Repr

/-- First list starts the second list. -/
def startsList : List Char → List Char → Bool
  | [], _ => true
  | _ :: _, [] => false
  | a :: as, b :: bs => a == b && startsList as bs

def subOf (n : List Char) : List Char → Bool
  | [] => startsList n []
  | b :: bs => startsList n (b :: bs) || subOf n bs

/-- Python substring containment `needle in hay`. -/
def containsSub (needle hay : String) : Bool :=
  subOf needle.data hay.data

def dropLeadWs : List Char → List Char
  | [] => []
  | c :: cs => if c.isWhitespace then dropLeadWs cs else c :: cs

/-- Python `str.strip()`: remove leading and trailing whitespace. -/
def pyStrip (s : String) : String :=
  String.mk ((dropLeadWs ((dropLeadWs s.data).reverse)).reverse)

/-- The chained condition of agent.py line 221 — inner_content is present,
its message entry is present, and the thinking field of that message is
present — yielding the `thinking` payload when it holds. -/
def ollamaThinking? (c : OllamaChunk) : Option String :=
  (c.inner_content.bind fun ic => ic.message).bind fun m => m.thinking

/-- Same chain for `.tool_calls` (agent.py line 237). -/
def ollamaToolCalls? (c : OllamaChunk) : Option (List (String × String)) :=
  (c.inner_content.bind fun ic => ic.message).bind fun m => m.tool_calls

def ollamaIsThought (c : OllamaChunk) : Bool := (ollamaThinking? c).isSome

def ollamaIsTool (c : OllamaChunk) : Bool := (ollamaToolCalls? c).isSome

/-- `len(chunk.content) > 0` (agent.py line 253). -/
def ollamaIsMsg (c : OllamaChunk) : Bool := !c.content.isEmpty

/-- `"message" in chunk.content_type and len(chunk.content) > 0`
(agent.py line 169). -/
def azureIsMsg (c : AzureChunk) : Bool :=
  containsSub "message" c.content_type && !c.content.isEmpty

/-- `len(chunk.items) > 0` (agent.py line 197). -/
def azureIsTool (c : AzureChunk) : Bool := !c.items.isEmpty

/-- Per-fragment classification outcome of the Ollama branch of
`Agent.run_agent` (agent.py lines 219-263): the final `elif` has no `else`,
so an empty fragment falls through silently. -/
def ollamaClassify (c : OllamaChunk) : ClassOutcome :=
  if ollamaIsThought c then ClassOutcome.thought
  else if ollamaIsTool c then ClassOutcome.tool
  else if ollamaIsMsg c then ClassOutcome.message
  else ClassOutcome.droppedSilent

/-- Per-fragment classification outcome of the Azure branch of
`Agent.run_agent` (agent.py lines 166-216): message is tested first, the
thoughts branch is commented out, and the trailing `else` drops the chunk,
silently when finish_reason equals the tool-calls marker and with a debug log
otherwise. -/
def azureClassify (c : AzureChunk) : ClassOutcome :=
  if azureIsMsg c then ClassOutcome.message
  else if azureIsTool c then ClassOutcome.tool
  else if c.finish_reason == some "tool_calls" then ClassOutcome.droppedSilent
  else ClassOutcome.droppedLogged

/-- Per-fragment classification of the loop in `main` (main.py lines
122-175): the trailing `else` classifies every remaining fragment as a
message, with no emptiness check. -/
def mainClassify (c : OllamaChunk) : ClassOutcome :=
  if ollamaIsThought c then ClassOutcome.thought
  else if ollamaIsTool c then ClassOutcome.tool
  else ClassOutcome.message

/-- The `full_response` accumulator dict during the loop (agent.py lines
144-148): all three fields are still lists. -/
structure FullResponse where
  thoughts : List String
  tool_calls : List ToolRec
  messages : List String
deriving DecidableEq, Repr

/-- Loop state of one turn: the `thoughts`/`tools`/`message` counters
(agent.py lines 161-163), the accumulator, and the log. -/
structure LoopState where
  thoughts : Nat
  tools : Nat
  message : Nat
  resp : FullResponse
  log : List LogTag
deriving DecidableEq, Repr

def initLoopState : LoopState := ⟨0, 0, 0, ⟨[], [], []⟩, []⟩

def thoughtHeader : String := "\n--- Agent Thoughts ---"

def toolsHeader : String := "\n--- Agent Tools ---"

def messageHeader : String := "\n--- Agent Message ---"

/-- One iteration of the Ollama branch of the `async for` loop of
`Agent.run_agent` (agent.py lines 219-263), returning the updated state and
the list of values yielded for this chunk. -/
def ollamaStep (streaming : Bool) (s : LoopState) (c : OllamaChunk) :
    LoopState × List String :=
  if ollamaIsThought c then
    let thinking := (ollamaThinking? c).getD ""
    let s1 := if s.thoughts = 0 then
        { s with thoughts := s.thoughts + 1, tools := 0, message := 0 } else s
    let hdr : List String := if s.thoughts = 0 then
        (if streaming then [thoughtHeader] else []) else []
    ({ s1 with resp := { s1.resp with thoughts := s1.resp.thoughts ++ [thinking] } },
      hdr ++ (if streaming then [thinking] else []))
  else if ollamaIsTool c then
    let tcs := (ollamaToolCalls? c).getD []
    let s1 := if s.tools = 0 then
        { s with tools := s.tools + 1, message := 0, thoughts := 0 } else s
    let hdr : List String := if s.tools = 0 then
        (if streaming then [toolsHeader] else []) else []
    ({ s1 with resp := { s1.resp with
        tool_calls := s1.resp.tool_calls ++ tcs.map fun t => ToolRec.named t.1 t.2 } },
      hdr ++ (if streaming then
        (tcs.map fun t => ["Tool: " ++ t.1, "Arguments: " ++ t.2]).flatten else []))
  else if ollamaIsMsg c then
    let s1 := if s.message = 0 then
        { s with message := s.message + 1, thoughts := 0, tools := 0 } else s
    let hdr : List String := if s.message = 0 then
        (if streaming then [messageHeader] else []) else []
    ({ s1 with resp := { s1.resp with
        messages := s1.resp.messages ++
          (if c.inner_content.isSome then [c.content] else []) } },
      hdr ++ (if streaming then [c.content] else []))
  else (s, [])

/-- One iteration of the Azure branch of the `async for` loop of
`Agent.run_agent` (agent.py lines 166-216). -/
def azureStep (streaming : Bool) (s : LoopState) (c : AzureChunk) :
    LoopState × List String :=
  if azureIsMsg c then
    let s1 := if s.message = 0 then
        { s with message := s.message + 1, thoughts := 0, tools := 0 } else s
    let hdr : List String := if s.message = 0 then
        (if streaming then [messageHeader] else []) else []
    ({ s1 with resp := { s1.resp with
        messages := s1.resp.messages ++
          (if c.inner_content.isSome then [c.content] else []) } },
      hdr ++ (if streaming then [c.content] else []))
  else if azureIsTool c then
    let s1 := if s.tools = 0 then
        { s with tools := s.tools + c.items.length, message := 0, thoughts := 0 } else s
    let hdr : List String := if s.tools = 0 then
        (if streaming then [toolsHeader] else []) else []
    ({ s1 with resp := { s1.resp with
        tool_calls := s1.resp.tool_calls ++
          ((c.items.filter fun t => t.content_type == "function_result").map
            fun t => ToolRec.raw t.inner_content) } },
      hdr)
  else if c.finish_reason == some "tool_calls" then (s, [])
  else ({ s with log := s.log ++ [LogTag.debugUnexpected] }, [])

/-- Driving a whole fragment list through `ollamaStep`, collecting yields. -/
def runChunks (streaming : Bool) : LoopState → List OllamaChunk → LoopState × List String
  | s, [] => (s, [])
  | s, c :: cs =>
    let r := ollamaStep streaming s c
    let rest := runChunks streaming r.1 cs
    (rest.1, r.2 ++ rest.2)

/-- A single-quote character, used by Python repr rendering. -/
def sQuote : String := String.singleton (Char.ofNat 39)

def pyQuote (s : String) : String := sQuote ++ s ++ sQuote

/-- Python `sep.join(s)` where `s` is a STRING: iterates the characters of
`s`, so the separator lands between every pair of characters.  This is the
operation agent.py lines 272 and 275 actually perform, because lines 271 and
274 have already replaced the list with its concatenation. -/
def pyJoinStr (sep s : String) : String :=
  String.intercalate sep (s.data.map String.singleton)

def pyStrToolRec : ToolRec → String
  | ToolRec.named n a => "\x7b" ++ pyQuote n ++ ": " ++ pyQuote a ++ "\x7d"
  | ToolRec.raw p => p

/-- Python str of the tool_calls list of full_response (agent.py line 278). -/
def pyStrToolCalls (l : List ToolRec) : String :=
  "[" ++ String.intercalate ", " (l.map pyStrToolRec) ++ "]"

/-- A Python value that is either still a list of strings or has been
replaced in place by a string (agent.py lines 271 and 274 mutate
`full_response` this way). -/
inductive PyVal
  | list (xs : List String)
  | str (s : String)
deriving DecidableEq, Repr

def pyValRepr : PyVal → String
  | PyVal.list xs => "[" ++ String.intercalate ", " (xs.map pyQuote) ++ "]"
  | PyVal.str s => pyQuote s

/-- The `full_response` dict after the end-of-stream mutation. -/
structure FullResponseFinal where
  thoughts : PyVal
  tool_calls : List ToolRec
  messages : PyVal
deriving DecidableEq, Repr

/-- Python `str(full_response)` (agent.py line 299): dict keys in insertion
order `thoughts`, `tool_calls`, `messages`. -/
def pyStrResponse (r : FullResponseFinal) : String :=
  "\x7b" ++ pyQuote "thoughts" ++ ": " ++ pyValRepr r.thoughts ++ ", "
    ++ pyQuote "tool_calls" ++ ": " ++ pyStrToolCalls r.tool_calls ++ ", "
    ++ pyQuote "messages" ++ ": " ++ pyValRepr r.messages ++ "\x7d"

/-- The `assistant_parts` list built at agent.py lines 269-278: thoughts
block, then messages block, then stringified tool calls, each only when the
corresponding accumulator is non-empty (Python truthiness). -/
def renderParts (r : FullResponse) : List String :=
  (if r.thoughts.isEmpty then [] else [pyJoinStr "\n" (String.join r.thoughts)])
    ++ (if r.messages.isEmpty then [] else [pyJoinStr "\n" (String.join r.messages)])
    ++ (if r.tool_calls.isEmpty then [] else [pyStrToolCalls r.tool_calls])

/-- `assistant_text = "\n\n".join([p for p in assistant_parts if p]).strip()`
(agent.py line 280). -/
def assistantTextOf (r : FullResponse) : String :=
  pyStrip (String.intercalate "\n\n" ((renderParts r).filter fun p => !p.isEmpty))

def finalThoughts (r : FullResponse) : PyVal :=
  if r.thoughts.isEmpty then PyVal.list r.thoughts
  else PyVal.str (String.join r.thoughts)

def finalMessages (r : FullResponse) : PyVal :=
  if r.messages.isEmpty then PyVal.list r.messages
  else PyVal.str (String.join r.messages)

/-- A registered provider handle (`self.mcp_server_objects` entry); `closeOk`
models whether `server.close()` succeeds at the end of the turn. -/
structure MCPServer where
  name : String
  closeOk : Bool
deriving DecidableEq, Repr

/-- Everything observable about one execution of `Agent.run_agent`. -/
structure TurnOutcome where
  history : List (Role × String)
  yields : List String
  response : FullResponseFinal
  assistant_text : String
  closeAttempted : List String
  caughtError : Bool
  log : List LogTag
deriving DecidableEq, Repr

/-- One execution of `Agent.run_agent` (agent.py lines 138-299) over the
Ollama shape.  The user message is appended before the `try` block (line
141).  When `errAt = some k` the stream raises at fragment `k`: the `except`
clause catches and logs (lines 294-296), the commit (lines 268-286) and the
provider-close loop (lines 287-293) are skipped because they sit inside the
same `try`, and the batched `yield str(full_response)` at line 298 still
runs, showing the un-finalized accumulator.  When the stream completes, the
accumulator is rendered, a non-empty render is committed as one assistant
entry, and `close()` is attempted on every registered provider with failures
logged and swallowed (lines 287-293). -/
def runTurnOllama (history0 : List (Role × String)) (servers : List MCPServer)
    (userInput : String) (streaming : Bool)
    (chunks : List OllamaChunk) (errAt : Option Nat) : TurnOutcome :=
  let h1 := history0 ++ [(Role.user, userInput)]
  match errAt with
  | some k =>
    let r := runChunks streaming initLoopState (chunks.take k)
    let fin : FullResponseFinal :=
      ⟨PyVal.list r.1.resp.thoughts, r.1.resp.tool_calls, PyVal.list r.1.resp.messages⟩
    { history := h1
      yields := r.2 ++ (if streaming then [] else [pyStrResponse fin])
      response := fin
      assistant_text := ""
      closeAttempted := []
      caughtError := true
      log := r.1.log ++ [LogTag.exceptionCaught] }
  | none =>
    let r := runChunks streaming initLoopState chunks
    let text := assistantTextOf r.1.resp
    let fin : FullResponseFinal :=
      ⟨finalThoughts r.1.resp, r.1.resp.tool_calls, finalMessages r.1.resp⟩
    { history := if text.isEmpty then h1 else h1 ++ [(Role.assistant, text)]
      yields := r.2 ++ (if streaming then [] else [pyStrResponse fin])
      response := fin
      assistant_text := text
      closeAttempted := servers.map fun sv => sv.name
      caughtError := false
      log := r.1.log ++
        ((servers.filter fun sv => !sv.closeOk).map fun _ => LogTag.closeError) }

/-- Input of one turn in a multi-turn session. -/
structure TurnSpec where
  input : String
  streaming : Bool
  chunks : List OllamaChunk
  errAt : Option Nat

/-- A sequence of completed calls to `run_agent`, threading the history. -/
def runTurns (servers : List MCPServer) :
    List (Role × String) → List TurnSpec → List (Role × String)
  | h, [] => h
  | h, t :: ts =>
    runTurns servers
      (runTurnOllama h servers t.input t.streaming t.chunks t.errAt).history ts

def countRole (r : Role) (l : List (Role × String)) : Nat :=
  (l.filter fun e => e.1 == r).length

def countNonUser (l : List (Role × String)) : Nat :=
  (l.filter fun e => e.1 != Role.user).length

def classKind : ClassOutcome → Option Kind
  | ClassOutcome.thought => some Kind.thought
  | ClassOutcome.tool => some Kind.tool
  | ClassOutcome.message => some Kind.message
  | _ => none

/-- The kind of the previous non-dropped fragment, as encoded by the three
counters: the code zeroes the other two whenever a section starts, so the
non-zero counter names the current section. -/
def stateKind (s : LoopState) : Option Kind :=
  if s.thoughts = 0 then
    if s.tools = 0 then
      if s.message = 0 then none else some Kind.message
    else some Kind.tool
  else some Kind.thought

/-- At most one of the three counters is non-zero (holds initially and is
preserved by every step). -/
def goodCounters (s : LoopState) : Prop :=
  (s.thoughts = 0 ∨ (s.tools = 0 ∧ s.message = 0)) ∧ (s.tools = 0 ∨ s.message = 0)

instance (s : LoopState) : Decidable (goodCounters s) := by
  unfold goodCounters; infer_instance

def startsWithHeader : List String → Bool
  | [] => false
  | y :: _ => y == thoughtHeader || y == toolsHeader || y == messageHeader

/-- Fragment indices at which a section header is yielded. -/
def headerPositionsAux (streaming : Bool) : LoopState → Nat → List OllamaChunk → List Nat
  | _, _, [] => []
  | s, i, c :: cs =>
    let r := ollamaStep streaming s c
    (if startsWithHeader r.2 then [i] else []) ++ headerPositionsAux streaming r.1 (i + 1) cs

def headerPositions (chunks : List OllamaChunk) : List Nat :=
  headerPositionsAux true initLoopState 0 chunks

/-- One declared MCP server configuration handed to
`Agent._setup_mcp_plugins` (agent.py lines 87-120).  `connectOk` models
whether `connect()` / `session.list_tools()` succeed; `closeOk` whether the
`close()` at line 118 succeeds. -/
structure ServerConfig where
  name : String
  url : Option String
  connectOk : Bool
  closeOk : Bool
deriving DecidableEq, Repr

inductive SetupEvent
  | warnNoUrl (name : String)
  | warnUnknownShape (name : String)
  | infoConnected (name : String)
  | errConnect (name : String)
deriving DecidableEq, Repr

/-- URL matches one of the two transport shapes: `"/mcp" in url` (streaming
HTTP) or `"/sse" in url` (server push), agent.py lines 97-106. -/
def urlShapeKnown (u : String) : Bool :=
  containsSub "/mcp" u || containsSub "/sse" u

/-- Processing of a single server configuration in the loop of
`_setup_mcp_plugins`: missing URL is a warning and a skip (lines 92-94);
unknown URL shape is a warning and a skip (lines 107-109); the plugin is
registered before `close()`, so a close failure still leaves the server
registered but logs an error; a connect failure logs an error and registers
nothing (lines 111-120). -/
def setupOne (c : ServerConfig) : List String × List SetupEvent :=
  match c.url with
  | none => ([], [SetupEvent.warnNoUrl c.name])
  | some u =>
    if urlShapeKnown u then
      if c.connectOk then
        if c.closeOk then ([c.name], [SetupEvent.infoConnected c.name])
        else ([c.name], [SetupEvent.infoConnected c.name, SetupEvent.errConnect c.name])
      else ([], [SetupEvent.errConnect c.name])
    else ([], [SetupEvent.warnUnknownShape c.name])

/-- `Agent._setup_mcp_plugins` over a list of server configurations:
registered server names plus the emitted log events, in order. -/
def setupMcpPlugins : List ServerConfig → List String × List SetupEvent
  | [] => ([], [])
  | c :: cs =>
    let r := setupOne c
    let rest := setupMcpPlugins cs
    (r.1 ++ rest.1, r.2 ++ rest.2)

/-- An Ollama message fragment whose `inner_content` is present. -/
def msgChunk (text : String) : OllamaChunk := ⟨text, some ⟨none⟩, none⟩

/-- An Ollama thought fragment. -/
def thoughtChunk (t : String) : OllamaChunk := ⟨"", some ⟨some ⟨some t, none⟩⟩, none⟩

/-- An Ollama tool fragment with one call. -/
def toolChunk (n a : String) : OllamaChunk := ⟨"", some ⟨some ⟨none, some [(n, a)]⟩⟩, none⟩

/-- A fully empty Ollama fragment: no content, no inner content. -/
def emptyChunk : OllamaChunk := ⟨"", none, none⟩

/-- An Ollama message fragment with text but `inner_content is None`. -/
def ghostChunk : OllamaChunk := ⟨"Hello", none, none⟩

/-- Kind sequence [message, message, thought, thought, message]. -/
def exC4chunks : List OllamaChunk :=
  [msgChunk "m1", msgChunk "m2", thoughtChunk "t1", thoughtChunk "t2", msgChunk "m3"]

/-- An Azure fragment carrying both non-empty visible text and a non-empty
tool-call item list. -/
def exC2azure : AzureChunk :=
  { content_type := "message", content := "hi"
    items := [⟨"function_call", "call-1"⟩]
    finish_reason := none, inner_content := some "raw" }

lemma classify_thought {c : OllamaChunk} (h : ollamaClassify c = ClassOutcome.thought) :
    ollamaIsThought c = true := by
  unfold ollamaClassify at h
  split_ifs at h with h1 h2 h3 <;> simp_all

lemma classify_tool {c : OllamaChunk} (h : ollamaClassify c = ClassOutcome.tool) :
    ollamaIsThought c = false ∧ ollamaIsTool c = true := by
  unfold ollamaClassify at h
  split_ifs at h with h1 h2 h3 <;> simp_all

lemma classify_msg {c : OllamaChunk} (h : ollamaClassify c = ClassOutcome.message) :
    ollamaIsThought c = false ∧ ollamaIsTool c = false ∧ ollamaIsMsg c = true := by
  unfold ollamaClassify at h
  split_ifs at h with h1 h2 h3 <;> simp_all

lemma classify_dropped {c : OllamaChunk} (h : ollamaClassify c = ClassOutcome.droppedSilent) :
    ollamaIsThought c = false ∧ ollamaIsTool c = false ∧ ollamaIsMsg c = false := by
  unfold ollamaClassify at h
  split_ifs at h with h1 h2 h3 <;> simp_all

lemma azure_classify_msg {c : AzureChunk} (h : azureClassify c = ClassOutcome.message) :
    azureIsMsg c = true := by
  unfold azureClassify at h
  split_ifs at h <;> simp_all

lemma azure_classify_tool {c : AzureChunk} (h : azureClassify c = ClassOutcome.tool) :
    azureIsMsg c = false ∧ azureIsTool c = true := by
  unfold azureClassify at h
  split_ifs at h <;> simp_all

lemma ollamaStep_dropped_eq (b : Bool) (s : LoopState) (c : OllamaChunk)
    (h : ollamaClassify c = ClassOutcome.droppedSilent) : ollamaStep b s c = (s, []) := by
  obtain ⟨h1, h2, h3⟩ := classify_dropped h
  unfold ollamaStep
  rw [h1, h2, h3]
  simp

lemma stateKind_ne_thought {s : LoopState} (h : s.thoughts = 0) :
    stateKind s ≠ some Kind.thought := by
  unfold stateKind
  rw [if_pos h]
  split_ifs <;> simp

lemma stateKind_thought {s : LoopState} (h : s.thoughts ≠ 0) :
    stateKind s = some Kind.thought := by
  unfold stateKind
  rw [if_neg h]

lemma stateKind_tool {s : LoopState} (hg : goodCounters s) (h : s.tools ≠ 0) :
    stateKind s = some Kind.tool := by
  obtain ⟨hg1, hg2⟩ := hg
  have ht : s.thoughts = 0 := by
    rcases hg1 with h0 | ⟨h0, _⟩
    · exact h0
    · exact absurd h0 h
  unfold stateKind
  rw [if_pos ht, if_neg h]

lemma stateKind_ne_tool {s : LoopState} (hg : goodCounters s) (h : s.tools = 0) :
    stateKind s ≠ some Kind.tool := by
  unfold stateKind
  split_ifs <;> simp_all

lemma stateKind_msg {s : LoopState} (hg : goodCounters s) (h : s.message ≠ 0) :
    stateKind s = some Kind.message := by
  obtain ⟨hg1, hg2⟩ := hg
  have ht : s.thoughts = 0 := by
    rcases hg1 with h0 | ⟨_, h0⟩
    · exact h0
    · exact absurd h0 h
  have hl : s.tools = 0 := by
    rcases hg2 with h0 | h0
    · exact h0
    · exact absurd h0 h
  unfold stateKind
  rw [if_pos ht, if_pos hl, if_neg h]

lemma stateKind_ne_msg {s : LoopState} (h : s.message = 0) :
    stateKind s ≠ some Kind.message := by
  unfold stateKind
  split_ifs <;> simp_all

lemma ollamaStep_thought_char (s : LoopState) (c : OllamaChunk)
    (hg : goodCounters s) (hc : ollamaClassify c = ClassOutcome.thought) :
    (ollamaStep true s c).2
        = (if stateKind s = some Kind.thought then [] else [thoughtHeader])
            ++ [(ollamaThinking? c).getD ""]
      ∧ stateKind (ollamaStep true s c).1 = some Kind.thought
      ∧ goodCounters (ollamaStep true s c).1 := by
  have h1 := classify_thought hc
  unfold ollamaStep
  rw [h1]
  by_cases h0 : s.thoughts = 0
  · rw [if_pos h0]
    simp only [if_true, if_pos h0]
    refine ⟨by rw [if_neg (stateKind_ne_thought h0)], ?_, ?_⟩
    · simp [stateKind]
    · simp [goodCounters]
  · rw [if_neg h0]
    simp only [if_true, if_neg h0]
    refine ⟨?_, stateKind_thought h0, hg⟩
    rw [if_pos (stateKind_thought h0)]

lemma ollamaStep_tool_char (s : LoopState) (c : OllamaChunk)
    (hg : goodCounters s) (hc : ollamaClassify c = ClassOutcome.tool) :
    (ollamaStep true s c).2
        = (if stateKind s = some Kind.tool then [] else [toolsHeader])
            ++ (((ollamaToolCalls? c).getD []).map
                  fun t => ["Tool: " ++ t.1, "Arguments: " ++ t.2]).flatten
      ∧ stateKind (ollamaStep true s c).1 = some Kind.tool
      ∧ goodCounters (ollamaStep true s c).1 := by
  obtain ⟨h1, h2⟩ := classify_tool hc
  unfold ollamaStep
  rw [h1, h2]
  by_cases h0 : s.tools = 0
  · simp only [Bool.false_eq_true, if_false, if_true, if_pos h0]
    refine ⟨?_, ?_, ?_⟩
    · rw [if_neg (stateKind_ne_tool hg h0)]
    · simp [stateKind]
    · simp [goodCounters]
  · simp only [Bool.false_eq_true, if_false, if_true, if_neg h0]
    refine ⟨?_, stateKind_tool hg h0, hg⟩
    rw [if_pos (stateKind_tool hg h0)]

lemma ollamaStep_msg_char (s : LoopState) (c : OllamaChunk)
    (hg : goodCounters s) (hc : ollamaClassify c = ClassOutcome.message) :
    (ollamaStep true s c).2
        = (if stateKind s = some Kind.message then [] else [messageHeader]) ++ [c.content]
      ∧ stateKind (ollamaStep true s c).1 = some Kind.message
      ∧ goodCounters (ollamaStep true s c).1 := by
  obtain ⟨h1, h2, h3⟩ := classify_msg hc
  unfold ollamaStep
  rw [h1, h2, h3]
  by_cases h0 : s.message = 0
  · simp only [Bool.false_eq_true, if_false, if_true, if_pos h0]
    refine ⟨?_, ?_, ?_⟩
    · rw [if_neg (stateKind_ne_msg h0)]
    · simp [stateKind]
    · simp [goodCounters]
  · simp only [Bool.false_eq_true, if_false, if_true, if_neg h0]
    refine ⟨?_, stateKind_msg hg h0, hg⟩
    rw [if_pos (stateKind_msg hg h0)]

lemma azureStep_msg_char (s : LoopState) (c : AzureChunk)
    (hg : goodCounters s) (hc : azureClassify c = ClassOutcome.message) :
    (azureStep true s c).2
        = (if stateKind s = some Kind.message then [] else [messageHeader]) ++ [c.content]
      ∧ stateKind (azureStep true s c).1 = some Kind.message
      ∧ goodCounters (azureStep true s c).1 := by
  have h1 := azure_classify_msg hc
  unfold azureStep
  rw [h1]
  by_cases h0 : s.message = 0
  · simp only [if_true, if_pos h0]
    refine ⟨?_, ?_, ?_⟩
    · rw [if_neg (stateKind_ne_msg h0)]
    · simp [stateKind]
    · simp [goodCounters]
  · simp only [if_true, if_neg h0]
    refine ⟨?_, stateKind_msg hg h0, hg⟩
    rw [if_pos (stateKind_msg hg h0)]

lemma azureStep_tool_char (s : LoopState) (c : AzureChunk)
    (hg : goodCounters s) (hc : azureClassify c = ClassOutcome.tool) :
    (azureStep true s c).2
        = (if stateKind s = some Kind.tool then [] else [toolsHeader])
      ∧ stateKind (azureStep true s c).1 = some Kind.tool
      ∧ goodCounters (azureStep true s c).1 := by
  obtain ⟨h1, h2⟩ := azure_classify_tool hc
  have hlen : c.items.length ≠ 0 := by
    cases h : c.items with
    | nil => simp [azureIsTool, h] at h2
    | cons a l => simp [h]
  unfold azureStep
  rw [h1, h2]
  by_cases h0 : s.tools = 0
  · simp only [Bool.false_eq_true, if_false, if_true, if_pos h0]
    refine ⟨?_, ?_, ?_⟩
    · rw [if_neg (stateKind_ne_tool hg h0)]
    · unfold stateKind
      simp [hlen]
    · exact ⟨Or.inl rfl, Or.inr rfl⟩
  · simp only [Bool.false_eq_true, if_false, if_true, if_neg h0]
    refine ⟨?_, stateKind_tool hg h0, hg⟩
    rw [if_pos (stateKind_tool hg h0)]

lemma runChunks_dropped (b : Bool) (s : LoopState) (l : List OllamaChunk)
    (h : ∀ c ∈ l, ollamaClassify c = ClassOutcome.droppedSilent) :
    runChunks b s l = (s, []) := by
  induction l with
  | nil => rfl
  | cons c cs ih =>
    have hc := h c (List.mem_cons_self c cs)
    have hcs : ∀ x ∈ cs, ollamaClassify x = ClassOutcome.droppedSilent :=
      fun x hx => h x (List.mem_cons_of_mem c hx)
    unfold runChunks
    rw [ollamaStep_dropped_eq b s c hc]
    simp [ih hcs]

lemma setup_append (l1 l2 : List ServerConfig) :
    setupMcpPlugins (l1 ++ l2)
      = ((setupMcpPlugins l1).1 ++ (setupMcpPlugins l2).1,
         (setupMcpPlugins l1).2 ++ (setupMcpPlugins l2).2) := by
  induction l1 with
  | nil => simp [setupMcpPlugins]
  | cons c cs ih =>
    simp only [List.cons_append, setupMcpPlugins]
    rw [show cs.append l2 = cs ++ l2 from rfl, ih]
    simp [List.append_assoc]

lemma countRole_append (r : Role) (l1 l2 : List (Role × String)) :
    countRole r (l1 ++ l2) = countRole r l1 + countRole r l2 := by
  simp [countRole, List.filter_append]

lemma countNonUser_append (l1 l2 : List (Role × String)) :
    countNonUser (l1 ++ l2) = countNonUser l1 + countNonUser l2 := by
  simp [countNonUser, List.filter_append]

lemma runTurn_hist_shape (h0 : List (Role × String)) (srv : List MCPServer)
    (inp : String) (b : Bool) (chunks : List OllamaChunk) (errAt : Option Nat) :
    ∃ rest, (runTurnOllama h0 srv inp b chunks errAt).history
        = h0 ++ (Role.user, inp) :: rest
      ∧ countRole Role.user rest = 0 ∧ countNonUser rest ≤ 1 := by
  cases errAt with
  | some k =>
    refine ⟨[], ?_, rfl, by simp [countNonUser]⟩
    simp [runTurnOllama]
  | none =>
    by_cases ht : (assistantTextOf (runChunks b initLoopState chunks).1.resp).isEmpty
    · refine ⟨[], ?_, rfl, by simp [countNonUser]⟩
      simp [runTurnOllama, ht]
    · refine ⟨[(Role.assistant,
        assistantTextOf (runChunks b initLoopState chunks).1.resp)], ?_, ?_, ?_⟩
      · simp [runTurnOllama, ht]
      · simp [countRole]
      · simp [countNonUser]

/-- C1: the claim as stated is false on the code: for a turn that buffers a
message fragment and then fails mid-stream, the error is caught
(`caughtError`), the buffered partial aggregation is non-empty
(`messages` list holds "Hello"), yet no assistant entry is committed to
history (only the user entry remains) and `close()` is attempted on no
provider connection. -/
theorem C1_counterexample :
    (runTurnOllama [] [⟨"srv", true⟩] "hi" false [msgChunk "Hello"] (some 1)).caughtError = true
    ∧ (runTurnOllama [] [⟨"srv", true⟩] "hi" false [msgChunk "Hello"] (some 1)).response.messages
        = PyVal.list ["Hello"]
    ∧ (runTurnOllama [] [⟨"srv", true⟩] "hi" false [msgChunk "Hello"] (some 1)).history
        = [(Role.user, "hi")]
    ∧ (runTurnOllama [] [⟨"srv", true⟩] "hi" false [msgChunk "Hello"] (some 1)).closeAttempted
        = [] := by
  decide

/-- C1 (amended): an exception raised while consuming the stream is caught,
logged, and not re-raised (the turn function is total and flags
`caughtError`), but the partial aggregation is NOT committed to history —
only the user entry appended before the `try` block remains — and `close()`
is NOT attempted on any provider connection, because the commit and the
close loop sit inside the same `try` block that the exception aborts. -/
theorem C1_caught_not_committed (h0 : List (Role × String)) (srv : List MCPServer)
    (inp : String) (b : Bool) (chunks : List OllamaChunk) (k : Nat) :
    (runTurnOllama h0 srv inp b chunks (some k)).caughtError = true
    ∧ LogTag.exceptionCaught ∈ (runTurnOllama h0 srv inp b chunks (some k)).log
    ∧ (runTurnOllama h0 srv inp b chunks (some k)).history = h0 ++ [(Role.user, inp)]
    ∧ (runTurnOllama h0 srv inp b chunks (some k)).closeAttempted = [] := by
  refine ⟨rfl, ?_, rfl, rfl⟩
  simp [runTurnOllama]

/-- C2: the claim is false for the Azure shape: a fragment carrying both a
non-empty visible-text payload and a non-empty tool-call item list is
classified `message`, not `tool` — the Azure branch tests message before
tools, so the priority order tool > message does not hold there. -/
theorem C2_counterexample :
    exC2azure.items.length > 0
    ∧ (!exC2azure.content.isEmpty) = true
    ∧ azureClassify exC2azure = ClassOutcome.message
    ∧ azureClassify exC2azure ≠ ClassOutcome.tool := by
  decide

/-- C2 (amended): classification priority is per-shape.  In the Ollama
shape the chain is thought > tool > message: a fragment with a thinking
payload is always `thought` (in particular one that also carries visible
text), a thinking-free fragment with tool calls is `tool`, and otherwise
non-empty text is `message`.  In the Azure shape visible text is tested
first — a fragment with non-empty `message`-typed content is classified
`message` even when it carries tool items — and no fragment is ever
classified `thought` (that branch is commented out). -/
theorem C2_priority_by_shape :
    (∀ c : OllamaChunk, ollamaIsThought c = true →
        ollamaClassify c = ClassOutcome.thought)
    ∧ (∀ c : OllamaChunk, ollamaIsThought c = false → ollamaIsTool c = true →
        ollamaClassify c = ClassOutcome.tool)
    ∧ (∀ c : OllamaChunk, ollamaIsThought c = false → ollamaIsTool c = false →
        ollamaIsMsg c = true → ollamaClassify c = ClassOutcome.message)
    ∧ (∀ c : AzureChunk, azureIsMsg c = true →
        azureClassify c = ClassOutcome.message)
    ∧ (∀ c : AzureChunk, azureClassify c ≠ ClassOutcome.thought) := by
  refine ⟨?_, ?_, ?_, ?_, ?_⟩
  · intro c h; simp [ollamaClassify, h]
  · intro c h1 h2; simp [ollamaClassify, h1, h2]
  · intro c h1 h2 h3; simp [ollamaClassify, h1, h2, h3]
  · intro c h; simp [azureClassify, h]
  · intro c
    unfold azureClassify
    split_ifs <;> simp

theorem C2_priority_by_shape_witness :
    ollamaClassify ⟨"visible text", some ⟨some ⟨some "thinking", none⟩⟩, none⟩
      = ClassOutcome.thought :=
  C2_priority_by_shape.1 ⟨"visible text", some ⟨some ⟨some "thinking", none⟩⟩, none⟩ (by decide)

/-- C3: evaluation of the code at the claimed scenario.  The batched
structured output does carry messages "Hello world" (and an unreplaced
empty list, not an empty string, for thoughts), but the assistant entry
committed to history is NOT "Hello world": lines 274-275 of agent.py first
replace the message list by its concatenation and then apply
`"\n".join` to that string, which interleaves a newline between every
character. -/
theorem C3_join_bug_eval :
    (runTurnOllama [] [] "hi" false [msgChunk "Hello", msgChunk " world"] none).response.messages
        = PyVal.str "Hello world"
    ∧ (runTurnOllama [] [] "hi" false [msgChunk "Hello", msgChunk " world"] none).response.thoughts
        = PyVal.list []
    ∧ (runTurnOllama [] [] "hi" false [msgChunk "Hello", msgChunk " world"] none).response.tool_calls
        = []
    ∧ (runTurnOllama [] [] "hi" false [msgChunk "Hello", msgChunk " world"] none).history
        = [(Role.user, "hi"), (Role.assistant, pyJoinStr "\n" "Hello world")]
    ∧ pyJoinStr "\n" "Hello world" ≠ "Hello world" := by
  decide

/-- C4: section-start signals (yields of the `--- Agent ... ---` header
strings) fire exactly at kind transitions.  For both shapes, a non-dropped
fragment makes the step yield the header of its kind first exactly when the
kind encoded by the counters (the kind of the previous non-dropped fragment)
differs, the step re-encodes the kind of the fragment into the counters, and
dropped fragments leave the state untouched; concretely, the kind sequence
[message, message, thought, thought, message] yields exactly three headers,
at fragment positions 0, 2 and 4. -/
theorem C4_section_signals :
    (∀ (s : LoopState) (c : OllamaChunk), goodCounters s →
        ollamaClassify c = ClassOutcome.thought →
        (ollamaStep true s c).2
            = (if stateKind s = some Kind.thought then [] else [thoughtHeader])
                ++ [(ollamaThinking? c).getD ""]
          ∧ stateKind (ollamaStep true s c).1 = some Kind.thought
          ∧ goodCounters (ollamaStep true s c).1)
    ∧ (∀ (s : LoopState) (c : OllamaChunk), goodCounters s →
        ollamaClassify c = ClassOutcome.tool →
        (ollamaStep true s c).2
            = (if stateKind s = some Kind.tool then [] else [toolsHeader])
                ++ (((ollamaToolCalls? c).getD []).map
                      fun t => ["Tool: " ++ t.1, "Arguments: " ++ t.2]).flatten
          ∧ stateKind (ollamaStep true s c).1 = some Kind.tool
          ∧ goodCounters (ollamaStep true s c).1)
    ∧ (∀ (s : LoopState) (c : OllamaChunk), goodCounters s →
        ollamaClassify c = ClassOutcome.message →
        (ollamaStep true s c).2
            = (if stateKind s = some Kind.message then [] else [messageHeader])
                ++ [c.content]
          ∧ stateKind (ollamaStep true s c).1 = some Kind.message
          ∧ goodCounters (ollamaStep true s c).1)
    ∧ (∀ (b : Bool) (s : LoopState) (c : OllamaChunk),
        ollamaClassify c = ClassOutcome.droppedSilent → ollamaStep b s c = (s, []))
    ∧ (∀ (s : LoopState) (c : AzureChunk), goodCounters s →
        azureClassify c = ClassOutcome.message →
        (azureStep true s c).2
            = (if stateKind s = some Kind.message then [] else [messageHeader])
                ++ [c.content]
          ∧ stateKind (azureStep true s c).1 = some Kind.message
          ∧ goodCounters (azureStep true s c).1)
    ∧ (∀ (s : LoopState) (c : AzureChunk), goodCounters s →
        azureClassify c = ClassOutcome.tool →
        (azureStep true s c).2
            = (if stateKind s = some Kind.tool then [] else [toolsHeader])
          ∧ stateKind (azureStep true s c).1 = some Kind.tool
          ∧ goodCounters (azureStep true s c).1)
    ∧ (runChunks true initLoopState exC4chunks).2
        = [messageHeader, "m1", "m2", thoughtHeader, "t1", "t2", messageHeader, "m3"]
    ∧ headerPositions exC4chunks = [0, 2, 4] :=
  ⟨ollamaStep_thought_char, ollamaStep_tool_char, ollamaStep_msg_char,
    ollamaStep_dropped_eq, azureStep_msg_char, azureStep_tool_char,
    by decide, by decide⟩

theorem C4_section_signals_witness :
    (ollamaStep true initLoopState (thoughtChunk "t")).2
        = (if stateKind initLoopState = some Kind.thought then [] else [thoughtHeader])
            ++ [(ollamaThinking? (thoughtChunk "t")).getD ""] :=
  (C4_section_signals.1 initLoopState (thoughtChunk "t") (by decide) (by decide)).1

/-- C5: the claim is false on the code at the concrete empty fragment with
no content, no inner content and a finish reason that is not tool-calls:
the Ollama branch of agent.py drops it silently (no log, contradicting
"logged as unexpected"), and the loop of main.py classifies it as a message
(contradicting "never classified as a message"). -/
theorem C5_counterexample :
    emptyChunk.content.isEmpty = true
    ∧ ollamaIsThought emptyChunk = false
    ∧ ollamaIsTool emptyChunk = false
    ∧ emptyChunk.finish_reason ≠ some "tool_calls"
    ∧ ollamaClassify emptyChunk = ClassOutcome.droppedSilent
    ∧ ollamaClassify emptyChunk ≠ ClassOutcome.droppedLogged
    ∧ mainClassify emptyChunk = ClassOutcome.message := by
  decide

/-- C5 (amended): empty-fragment handling is per code path.  In the Azure
branch of agent.py an empty fragment is dropped: silently when its finish
reason is tool-calls, otherwise with a debug log.  In the Ollama branch of
agent.py every empty fragment is dropped silently, with no logging and no
state change.  In the loop of main.py, any fragment that is neither thought nor tool —
including an empty one — is classified as a message.  In agent.py an empty
fragment is never classified as a message and never raises. -/
theorem C5_empty_handling :
    (∀ (b : Bool) (s : LoopState) (c : AzureChunk),
        azureIsMsg c = false → azureIsTool c = false →
        azureStep b s c
          = (if c.finish_reason == some "tool_calls" then (s, [])
             else ({ s with log := s.log ++ [LogTag.debugUnexpected] }, [])))
    ∧ (∀ c : AzureChunk, azureIsMsg c = false → azureIsTool c = false →
        azureClassify c
          = (if c.finish_reason == some "tool_calls" then ClassOutcome.droppedSilent
             else ClassOutcome.droppedLogged))
    ∧ (∀ c : OllamaChunk, ollamaIsThought c = false → ollamaIsTool c = false →
        ollamaIsMsg c = false →
        ollamaClassify c = ClassOutcome.droppedSilent
        ∧ ∀ (b : Bool) (s : LoopState), ollamaStep b s c = (s, []))
    ∧ (∀ c : OllamaChunk, ollamaIsThought c = false → ollamaIsTool c = false →
        mainClassify c = ClassOutcome.message) := by
  refine ⟨?_, ?_, ?_, ?_⟩
  · intro b s c h1 h2
    unfold azureStep
    rw [h1, h2]
    simp
  · intro c h1 h2
    unfold azureClassify
    rw [h1, h2]
    simp
  · intro c h1 h2 h3
    have hcl : ollamaClassify c = ClassOutcome.droppedSilent := by
      unfold ollamaClassify
      rw [h1, h2, h3]
      simp
    exact ⟨hcl, fun b s => ollamaStep_dropped_eq b s c hcl⟩
  · intro c h1 h2
    unfold mainClassify
    rw [h1, h2]
    simp

theorem C5_empty_handling_witness :
    ollamaClassify emptyChunk = ClassOutcome.droppedSilent
    ∧ ∀ (b : Bool) (s : LoopState), ollamaStep b s emptyChunk = (s, []) :=
  C5_empty_handling.2.2.1 emptyChunk (by decide) (by decide) (by decide)

/-- C6: a single Ollama tool fragment named "lookup" with raw argument
string produces exactly that one (name, arguments) record in the
tool_calls list of the turn, and the rendered assistant text committed to history is exactly
the stringified tool-call list, with the thoughts and messages accumulators
(and hence their rendered blocks) empty. -/
theorem C6_tool_turn :
    (runTurnOllama [] [] "q" false [toolChunk "lookup" "\x7bx:1\x7d"] none).response.tool_calls
        = [ToolRec.named "lookup" "\x7bx:1\x7d"]
    ∧ (runTurnOllama [] [] "q" false [toolChunk "lookup" "\x7bx:1\x7d"] none).assistant_text
        = pyStrToolCalls [ToolRec.named "lookup" "\x7bx:1\x7d"]
    ∧ (runTurnOllama [] [] "q" false [toolChunk "lookup" "\x7bx:1\x7d"] none).response.thoughts
        = PyVal.list []
    ∧ (runTurnOllama [] [] "q" false [toolChunk "lookup" "\x7bx:1\x7d"] none).response.messages
        = PyVal.list []
    ∧ (runTurnOllama [] [] "q" false [toolChunk "lookup" "\x7bx:1\x7d"] none).history
        = [(Role.user, "q"),
           (Role.assistant, pyStrToolCalls [ToolRec.named "lookup" "\x7bx:1\x7d"])] := by
  decide

/-- C7: the claim as stated is false on the code: a turn whose stream is
empty still appends the user entry to history (agent.py line 141 runs
before the stream is consumed), so history does gain an entry. -/
theorem C7_counterexample :
    (runTurnOllama [] [] "hi" false [] none).history = [(Role.user, "hi")]
    ∧ (runTurnOllama [] [] "hi" false [] none).history ≠ [] := by
  decide

/-- C7 (amended): for a turn whose fragments are all empty (dropped), the
turn result is empty in all three collections, the rendered assistant
string is empty, and no assistant or system entry is appended — but the
user entry of the turn is still appended to history. -/
theorem C7_empty_turn (h0 : List (Role × String)) (srv : List MCPServer)
    (inp : String) (b : Bool) (chunks : List OllamaChunk)
    (h : ∀ c ∈ chunks, ollamaClassify c = ClassOutcome.droppedSilent) :
    (runTurnOllama h0 srv inp b chunks none).response
        = ⟨PyVal.list [], [], PyVal.list []⟩
    ∧ (runTurnOllama h0 srv inp b chunks none).assistant_text = ""
    ∧ (runTurnOllama h0 srv inp b chunks none).history = h0 ++ [(Role.user, inp)] := by
  have hr := runChunks_dropped b initLoopState chunks h
  simp only [runTurnOllama, hr]
  refine ⟨rfl, rfl, ?_⟩
  have ha : (assistantTextOf initLoopState.resp).isEmpty = true := rfl
  simp [ha]

theorem C7_empty_turn_witness :
    (runTurnOllama [] [] "hi" false [emptyChunk] none).response
        = ⟨PyVal.list [], [], PyVal.list []⟩
    ∧ (runTurnOllama [] [] "hi" false [emptyChunk] none).assistant_text = ""
    ∧ (runTurnOllama [] [] "hi" false [emptyChunk] none).history
        = [] ++ [(Role.user, "hi")] :=
  C7_empty_turn [] [] "hi" false [emptyChunk] (by decide)

/-- C8: after N completed turns starting from any history, the history is
the old history plus an appended tail containing exactly N user entries
(one per turn) and at most N non-user (synthesized assistant) entries;
nothing earlier is removed or rewritten. -/
theorem C8_history_invariant (srv : List MCPServer) (ts : List TurnSpec)
    (h : List (Role × String)) :
    ∃ tail, runTurns srv h ts = h ++ tail
      ∧ countRole Role.user tail = ts.length
      ∧ countNonUser tail ≤ ts.length := by
  induction ts generalizing h with
  | nil =>
    refine ⟨[], by simp [runTurns], ?_, ?_⟩ <;> simp [countRole, countNonUser]
  | cons t ts ih =>
    obtain ⟨rest, hh, hu, hn⟩ :=
      runTurn_hist_shape h srv t.input t.streaming t.chunks t.errAt
    obtain ⟨tail2, h2, hu2, hn2⟩ :=
      ih (runTurnOllama h srv t.input t.streaming t.chunks t.errAt).history
    refine ⟨(Role.user, t.input) :: (rest ++ tail2), ?_, ?_, ?_⟩
    · show runTurns srv
        (runTurnOllama h srv t.input t.streaming t.chunks t.errAt).history ts = _
      rw [h2, hh]
      simp
    · have : (Role.user, t.input) :: (rest ++ tail2)
          = [(Role.user, t.input)] ++ rest ++ tail2 := by simp
      rw [this, countRole_append, countRole_append, hu, hu2]
      have h1 : countRole Role.user [(Role.user, t.input)] = 1 := by
        simp [countRole]
      rw [h1]
      simp only [List.length_cons]
      omega
    · have : (Role.user, t.input) :: (rest ++ tail2)
          = [(Role.user, t.input)] ++ rest ++ tail2 := by simp
      rw [this, countNonUser_append, countNonUser_append]
      have h1 : countNonUser [(Role.user, t.input)] = 0 := by simp [countNonUser]
      rw [h1]
      simp only [List.length_cons]
      omega

/-- C9: during provider activation, a configuration with no URL or with a
URL matching neither transport shape is skipped with a logged warning, a
configuration whose connect fails registers nothing, and in every such case
the set of providers registered from the rest of the list is exactly what
it would be on its own — one bad or failing provider never prevents the
others from being connected and used. -/
theorem C9_provider_skip (pre post : List ServerConfig) (c : ServerConfig)
    (h : c.url = none
      ∨ (∃ u, c.url = some u ∧ urlShapeKnown u = false)
      ∨ c.connectOk = false) :
    (setupMcpPlugins (pre ++ c :: post)).1
        = (setupMcpPlugins pre).1 ++ (setupMcpPlugins post).1
    ∧ (c.url = none →
        SetupEvent.warnNoUrl c.name ∈ (setupMcpPlugins (pre ++ c :: post)).2)
    ∧ (∀ u, c.url = some u → urlShapeKnown u = false →
        SetupEvent.warnUnknownShape c.name ∈ (setupMcpPlugins (pre ++ c :: post)).2)
    ∧ (∀ u, c.url = some u → urlShapeKnown u = true → c.connectOk = false →
        SetupEvent.errConnect c.name ∈ (setupMcpPlugins (pre ++ c :: post)).2) := by
  have hsplit : setupMcpPlugins (pre ++ c :: post)
      = ((setupMcpPlugins pre).1 ++ (setupOne c).1 ++ (setupMcpPlugins post).1,
         (setupMcpPlugins pre).2 ++ (setupOne c).2 ++ (setupMcpPlugins post).2) := by
    rw [show (c :: post) = [c] ++ post from rfl, ← List.append_assoc, setup_append,
      setup_append]
    simp [setupMcpPlugins, List.append_assoc]
  have hempty : (setupOne c).1 = [] := by
    rcases h with h | ⟨u, hu, hsh⟩ | h
    · simp [setupOne, h]
    · simp [setupOne, hu, hsh]
    · unfold setupOne
      cases hu : c.url with
      | none => simp
      | some u => by_cases hs : urlShapeKnown u = true <;> simp [hs, h]
  refine ⟨?_, ?_, ?_, ?_⟩
  · rw [hsplit]
    simp [hempty]
  · intro hu
    rw [hsplit]
    have : SetupEvent.warnNoUrl c.name ∈ (setupOne c).2 := by simp [setupOne, hu]
    simp only [List.mem_append]
    exact Or.inl (Or.inr this)
  · intro u hu hsh
    rw [hsplit]
    have : SetupEvent.warnUnknownShape c.name ∈ (setupOne c).2 := by
      simp [setupOne, hu, hsh]
    simp only [List.mem_append]
    exact Or.inl (Or.inr this)
  · intro u hu hs hc
    rw [hsplit]
    have : SetupEvent.errConnect c.name ∈ (setupOne c).2 := by
      simp [setupOne, hu, hs, hc]
    simp only [List.mem_append]
    exact Or.inl (Or.inr this)

theorem C9_provider_skip_witness :
    (setupMcpPlugins [⟨"good", some "http://h/mcp", true, true⟩,
        ⟨"bad", none, true, true⟩, ⟨"other", some "http://h/sse", true, true⟩]).1
      = (setupMcpPlugins [⟨"good", some "http://h/mcp", true, true⟩]).1
          ++ (setupMcpPlugins [⟨"other", some "http://h/sse", true, true⟩]).1 :=
  (C9_provider_skip [⟨"good", some "http://h/mcp", true, true⟩]
    [⟨"other", some "http://h/sse", true, true⟩]
    ⟨"bad", none, true, true⟩ (Or.inl rfl)).1

/-- C10: in streaming mode the visible text of a message-kind fragment is always
among the yielded values (for both shapes), but it is appended to the
aggregated messages list only when the inner_content of the fragment is present;
consequently there are streams — e.g. a single message fragment with
`inner_content = None` — whose streamed text never reaches the turn result
or history: the turn ends with an empty messages accumulator and only the
user entry committed. -/
theorem C10_inner_content_gate :
    (∀ (s : LoopState) (c : OllamaChunk),
        ollamaClassify c = ClassOutcome.message →
        c.content ∈ (ollamaStep true s c).2
        ∧ (ollamaStep true s c).1.resp.messages
            = s.resp.messages ++ (if c.inner_content.isSome then [c.content] else []))
    ∧ (∀ (s : LoopState) (c : AzureChunk),
        azureClassify c = ClassOutcome.message →
        c.content ∈ (azureStep true s c).2
        ∧ (azureStep true s c).1.resp.messages
            = s.resp.messages ++ (if c.inner_content.isSome then [c.content] else []))
    ∧ ("Hello" ∈ (runTurnOllama [] [] "q" true [ghostChunk] none).yields
        ∧ (runTurnOllama [] [] "q" true [ghostChunk] none).history = [(Role.user, "q")]
        ∧ (runTurnOllama [] [] "q" true [ghostChunk] none).response.messages
            = PyVal.list []) := by
  refine ⟨?_, ?_, by decide⟩
  · intro s c hc
    obtain ⟨h1, h2, h3⟩ := classify_msg hc
    unfold ollamaStep
    rw [h1, h2, h3]
    by_cases h0 : s.message = 0 <;> simp [h0]
  · intro s c hc
    have h1 := azure_classify_msg hc
    unfold azureStep
    rw [h1]
    by_cases h0 : s.message = 0 <;> simp [h0]

theorem C10_inner_content_gate_witness :
    ghostChunk.content ∈ (ollamaStep true initLoopState ghostChunk).2
    ∧ (ollamaStep true initLoopState ghostChunk).1.resp.messages
        = initLoopState.resp.messages
            ++ (if ghostChunk.inner_content.isSome then [ghostChunk.content] else []) :=
  C10_inner_content_gate.1 initLoopState ghostChunk (by decide)
